import Mathlib

/-!
Shallow embedding of the game core of c-chess-cli (src/game.c), together with
proofs checking the natural-language specification against it.

The external chess library (move generation, FEN encoding, LAN/SAN encoding,
insufficient-material detection) is out of scope of the repository's core and
is represented by function parameters.  Machine integers (`int64_t`, `int`)
are modelled as `Int`/`Nat`; no computation below comes near the overflow
boundary, so no wrap-around modelling is needed.
-/

namespace CChessCli

/-- Modelled from the spec: colour constants of the chess library (WHITE = 0). -/
def WHITE : Nat := 0

/-- Modelled from the spec: colour constants of the chess library (BLACK = 1);
`BLACK` is used as an XOR mask on engine/colour indices. -/
def BLACK : Nat := 1

/-- Modelled from the spec: result codes, `LOSS=0, DRAW=1, WIN=2, NB_RESULT=3`
(`NB_RESULT` is the "not yet labeled" sentinel). -/
def RESULT_LOSS : Nat := 0

/-- Modelled from the spec: result code DRAW = 1. -/
def RESULT_DRAW : Nat := 1

/-- Modelled from the spec: result code WIN = 2. -/
def RESULT_WIN : Nat := 2

/-- Modelled from the spec: sentinel result code NB_RESULT = 3. -/
def NB_RESULT : Nat := 3

/-- Modelled from the spec: game state enumeration of game.h, in declaration
order: `STATE_NONE=0, STATE_CHECKMATE, STATE_STALEMATE, STATE_THREEFOLD,
STATE_FIFTY_MOVES, STATE_INSUFFICIENT_MATERIAL, STATE_ILLEGAL_MOVE,
STATE_SEPARATOR, STATE_DRAW_ADJUDICATION, STATE_RESIGN, STATE_TIME_LOSS`. -/
def STATE_NONE : Nat := 0

/-- Modelled from the spec: STATE_CHECKMATE = 1. -/
def STATE_CHECKMATE : Nat := 1

/-- Modelled from the spec: STATE_STALEMATE = 2. -/
def STATE_STALEMATE : Nat := 2

/-- Modelled from the spec: STATE_THREEFOLD = 3. -/
def STATE_THREEFOLD : Nat := 3

/-- Modelled from the spec: STATE_FIFTY_MOVES = 4. -/
def STATE_FIFTY_MOVES : Nat := 4

/-- Modelled from the spec: STATE_INSUFFICIENT_MATERIAL = 5. -/
def STATE_INSUFFICIENT_MATERIAL : Nat := 5

/-- Modelled from the spec: STATE_ILLEGAL_MOVE = 6. -/
def STATE_ILLEGAL_MOVE : Nat := 6

/-- Modelled from the spec: STATE_SEPARATOR = 7, the sentinel separating
decisive states (below) from draw states (above), with the documented
exception of RESIGN and TIME_LOSS. -/
def STATE_SEPARATOR : Nat := 7

/-- Modelled from the spec: STATE_DRAW_ADJUDICATION = 8. -/
def STATE_DRAW_ADJUDICATION : Nat := 8

/-- Modelled from the spec: STATE_RESIGN = 9. -/
def STATE_RESIGN : Nat := 9

/-- Modelled from the spec: STATE_TIME_LOSS = 10. -/
def STATE_TIME_LOSS : Nat := 10

/-- The C constant `INT16_MAX` of `<limits.h>`. -/
def INT16_MAX : Int := 32767

/-- The C constant `INT16_MIN` of `<limits.h>`. -/
def INT16_MIN : Int := -32768

/-- The C constant `INT64_MAX` of `<limits.h>`. -/
def INT64_MAX : Int := 9223372036854775807

/-- Modelled from the spec: the fields of the external chess library's
`Position` that the core reads.  `checkers` is a bitmask in C, nonzero iff
the side to move is in check; only zero/nonzero is ever tested, so it is a
`Bool` here.  Moves are opaque values, modelled as `Nat`. -/
structure Position where
  turn : Nat
  rule50 : Nat
  key : Nat
  checkers : Bool
  lastMove : Nat
deriving DecidableEq

/-- The zero-initialized `(Position){0}` that `game_load_fen` and `game_play`
push onto the position vector. -/
def zeroPosition : Position :=
  { turn := 0, rule50 := 0, key := 0, checkers := false, lastMove := 0 }

/-- The game history that game.c's helpers read: the position sequence
(`g->pos`, modelled as a total function from indices; all accesses made by the
embedded code are at indices `≤ ply`) and the current ply `g->ply`. -/
structure Game where
  pos : Nat → Position
  ply : Nat

/-- Modelled from the spec: a training sample `{ position, score, result }`
(`result ∈ {LOSS=0, DRAW=1, WIN=2, NB_RESULT=3}`, `score : i32`). -/
structure Sample where
  pos : Position
  score : Int
  result : Nat
deriving DecidableEq

/-- Modelled from the spec: the per-engine limit options read by game.c
(`nodes`, `depth`, `movetime`, `time`, `increment`, `movestogo`).  In C these
are integers whose truthiness (nonzero) selects the limit. -/
structure EngineOptions where
  nodes : Int
  depth : Nat
  movetime : Int
  time : Int
  increment : Int
  movestogo : Nat
deriving DecidableEq

/-- game.c `is_mating`: `score > INT16_MAX - 1024`. -/
def is_mating (score : Int) : Bool :=
  score > INT16_MAX - 1024

/-- game.c `is_mated`: `score < INT16_MIN + 1024`. -/
def is_mated (score : Int) : Bool :=
  score < INT16_MIN + 1024

/-- game.c `is_mate`: `is_mating(score) || is_mated(score)`. -/
def is_mate (score : Int) : Bool :=
  is_mating score || is_mated score

/-- game.c `uci_position_command` (lines 37-58).  The FEN encoder `pos_get`
and the LAN encoder `pos_move_to_lan` are external library calls, passed as
the parameters `posGet` and `lan`.  `ply0` is the C
`max(g->ply - g->pos[g->ply].rule50, 0)`; `Nat` subtraction truncates at 0
exactly like that `max`.  The C `for` loop appends, for each
`ply ∈ [ply0+1, g->ply]`, a space then `pos_move_to_lan(&g->pos[ply-1],
g->pos[ply].lastMove)`; that loop is the `foldl` over `List.range'` below. -/
def uci_position_command (posGet : Position → String) (lan : Position → Nat → String)
    (g : Game) : String :=
  let ply0 : Nat := g.ply - (g.pos g.ply).rule50
  let cmd : String := "position fen " ++ posGet (g.pos ply0)
  if ply0 < g.ply then
    (List.range' (ply0 + 1) (g.ply - ply0)).foldl
      (fun cmd ply => cmd ++ " " ++ lan (g.pos (ply - 1)) ((g.pos ply).lastMove))
      (cmd ++ " moves")
  else
    cmd

/-- game.c `uci_go_command` (lines 60-85).  Each C `str_cat_fmt` call is one
append of the formatted fragment.  `timeLeft` is the two-element array
`timeLeft[2]`, and `eo` the two-element option array, both modelled as total
functions from the index. -/
def uci_go_command (eo : Nat → EngineOptions) (ei : Nat) (timeLeft : Nat → Int)
    (g : Game) : String :=
  let cmd : String := "go"
  let cmd := if (eo ei).nodes ≠ 0 then cmd ++ (" nodes " ++ toString (eo ei).nodes) else cmd
  let cmd := if (eo ei).depth ≠ 0 then cmd ++ (" depth " ++ toString (eo ei).depth) else cmd
  let cmd := if (eo ei).movetime ≠ 0 then cmd ++ (" movetime " ++ toString (eo ei).movetime)
    else cmd
  let color := (g.pos g.ply).turn
  let cmd := if (eo ei).time ≠ 0 ∨ (eo ei).increment ≠ 0 then
      cmd ++ (" wtime " ++ toString (timeLeft (ei ^^^ color)) ++
        " winc " ++ toString (eo (ei ^^^ color)).increment ++
        " btime " ++ toString (timeLeft (ei ^^^ color ^^^ BLACK)) ++
        " binc " ++ toString (eo (ei ^^^ color ^^^ BLACK)).increment)
    else cmd
  let cmd := if (eo ei).movestogo ≠ 0 then
      cmd ++ (" movestogo " ++ toString ((eo ei).movestogo - ((g.ply / 2) % (eo ei).movestogo)))
    else cmd
  cmd

/-- The repetition scan of game.c `game_apply_chess_rules` (lines 102-108):
`for (int i = 4; i <= pos->rule50 && i <= g->ply; i += 2)
   if (g->pos[g->ply - i].key == pos->key && ++repetitions >= 3)
     return STATE_THREEFOLD;`
written with an explicit fuel so that it is structurally recursive; every
call made by `game_apply_chess_rules` supplies more fuel than the loop can
consume, so the fuel-exhaustion branch is never taken there. -/
def game_repetition_scan (g : Game) : Nat → Nat → Nat → Bool
  | 0, _, _ => false
  | fuel + 1, i, repetitions =>
    if i ≤ (g.pos g.ply).rule50 ∧ i ≤ g.ply then
      if (g.pos (g.ply - i)).key = (g.pos g.ply).key then
        if 3 ≤ repetitions + 1 then true
        else game_repetition_scan g fuel (i + 2) (repetitions + 1)
      else game_repetition_scan g fuel (i + 2) repetitions
    else false

/-- game.c `game_apply_chess_rules` (lines 87-111).  The external calls
`gen_all_moves` and `pos_insufficient_material` are the parameters `gen` and
`insufficientMaterial`.  The C function returns the state and writes the move
list through an out parameter; here the pair is returned.  The C
`assert(pos->rule50 == 100)` is a debug assertion with no effect on the
returned value and is not modelled. -/
def game_apply_chess_rules (gen : Position → List Nat)
    (insufficientMaterial : Position → Bool) (g : Game) : Nat × List Nat :=
  let pos := g.pos g.ply
  let moves := gen pos
  if moves = [] then
    ((if pos.checkers then STATE_CHECKMATE else STATE_STALEMATE), moves)
  else if 100 ≤ pos.rule50 then
    (STATE_FIFTY_MOVES, moves)
  else if insufficientMaterial pos then
    (STATE_INSUFFICIENT_MATERIAL, moves)
  else if game_repetition_scan g (g.ply + 1) 4 1 then
    (STATE_THREEFOLD, moves)
  else
    (STATE_NONE, moves)

/-- The offsets `i = 4, 6, 8, …` with `i ≤ rule50 ∧ i ≤ ply` that the
repetition scan visits: there are `(min rule50 ply + 2 - 4) / 2` of them. -/
def repetition_offsets (g : Game) : List Nat :=
  List.range' 4 ((min (g.pos g.ply).rule50 g.ply + 2 - 4) / 2) 2

/-- The number of scanned earlier positions whose Zobrist key matches the
current position's key. -/
def game_repetition_count (g : Game) : Nat :=
  (repetition_offsets g).countP
    (fun i => (g.pos (g.ply - i)).key == (g.pos g.ply).key)

/-- game.c `game_load_fen` (lines 178-187).  The external `pos_set` parses
the FEN into `&g->pos[0]` (the element just pushed: the function runs on a
fresh game whose position vector is empty) and reports success; it is the
parameter `posSet`, returning the parsed position on success.  The C function
returns `true` and writes `*color` on success; here the returned
`Option Nat` is `some` of that colour on success and `none` on failure
(`*color` untouched). -/
def game_load_fen (posSet : String → Option Position) (pos : List Position)
    (fen : String) : List Position × Option Nat :=
  let pos1 := pos ++ [zeroPosition]
  match posSet fen with
  | some p => (pos1.set 0 p, some p.turn)
  | none => (pos1, none)

/-- The clock update of game.c `game_play` (lines 240-253, comment "Prepare
timeLeft[ei]"): movetime overwrites; else time/increment accumulate with the
movestogo refill; else the large sentinel `INT64_MAX / 2`. -/
def game_prepare_timeLeft (eo : EngineOptions) (timeLeft : Int) (ply : Nat) : Int :=
  if eo.movetime ≠ 0 then
    eo.movetime
  else if eo.time ≠ 0 ∨ eo.increment ≠ 0 then
    let t := timeLeft + eo.increment
    if eo.movestogo ≠ 0 ∧ 1 < ply ∧ (ply / 2) % eo.movestogo = 0 then t + eo.time else t
  else
    INT64_MAX / 2

/-- The sample-writing step of game.c `game_play` (lines 302-315).
`resolve` is `o->sp.resolve`, `resolved` the position returned by
`resolve_pv`, `posPly` is `g->pos[g->ply]`, `score` is `info.score`, and
`accept` models the floating-point PRNG test
`prngf(&w->seed) <= o->sp.freq * exp(-o->sp.decay * rule50)`.  Returns the
pushed sample, or `none` when no sample is pushed. -/
def game_sample_step (resolve : Bool) (resolved posPly : Position) (score : Int)
    (accept : Bool) : Option Sample :=
  if !(resolve && is_mate score) && accept then
    let sample : Sample :=
      { pos := if resolve then resolved else posPly,
        score := if (if resolve then resolved else posPly).turn = posPly.turn then score
          else -score,
        result := NB_RESULT }
    if !resolve || !sample.pos.checkers then some sample else none
  else
    none

/-- The signed result from White's point of view computed by game.c
`game_play` (lines 323-326): `g->state < STATE_SEPARATOR ?
(g->pos[g->ply].turn == WHITE ? RESULT_LOSS : RESULT_WIN) : RESULT_DRAW`. -/
def game_wpov (state turnAtEnd : Nat) : Nat :=
  if state < STATE_SEPARATOR then
    (if turnAtEnd = WHITE then RESULT_LOSS else RESULT_WIN)
  else
    RESULT_DRAW

/-- The post-loop phase of game.c `game_play` (lines 323-333): relabel every
stored sample from the white-POV result, and compute the return value from
engine 0's point of view.  `turnAtEnd` is `g->pos[g->ply].turn` and `ei` the
engine on the move at termination. -/
def game_play_finish (state turnAtEnd ei : Nat) (samples : List Sample) :
    List Sample × Nat :=
  let wpov := game_wpov state turnAtEnd
  (samples.map (fun s =>
      { s with result := if s.pos.turn = WHITE then wpov else 2 - wpov }),
   if state < STATE_SEPARATOR then (if ei = 0 then RESULT_LOSS else RESULT_WIN)
   else RESULT_DRAW)

/-- game.c `game_decode_state` (lines 336-368).  `turn` is
`g->pos[g->ply].turn`.  The C function starts from the defaults
`result = "1/2-1/2"`, `reason = ""` and overwrites them per state; the final
branch is `assert(false)`, which leaves the defaults. -/
def game_decode_state (state turn : Nat) : String × String :=
  if state = STATE_NONE then ("*", "unterminated")
  else if state = STATE_CHECKMATE then
    ((if turn = WHITE then "0-1" else "1-0"), "checkmate")
  else if state = STATE_STALEMATE then ("1/2-1/2", "stalemate")
  else if state = STATE_THREEFOLD then ("1/2-1/2", "3-fold repetition")
  else if state = STATE_FIFTY_MOVES then ("1/2-1/2", "50 moves rule")
  else if state = STATE_INSUFFICIENT_MATERIAL then ("1/2-1/2", "insufficient material")
  else if state = STATE_ILLEGAL_MOVE then
    ((if turn = WHITE then "0-1" else "1-0"), "rules infraction")
  else if state = STATE_DRAW_ADJUDICATION then ("1/2-1/2", "adjudication")
  else if state = STATE_RESIGN then
    ((if turn = WHITE then "0-1" else "1-0"), "adjudication")
  else if state = STATE_TIME_LOSS then
    ((if turn = WHITE then "0-1" else "1-0"), "time forfeit")
  else ("1/2-1/2", "")

/-- Concrete move generator returning no legal move, for evaluating the
embedded functions on explicit inputs. -/
def genEmptyW : Position → List Nat := fun _ => []

/-- Concrete move generator returning one legal move. -/
def genOneW : Position → List Nat := fun _ => [0]

/-- Concrete insufficient-material test that always reports true. -/
def insufTrueW : Position → Bool := fun _ => true

/-- Concrete insufficient-material test that always reports false. -/
def insufFalseW : Position → Bool := fun _ => false

/-- Concrete game at ply 0 whose position is in check with `rule50 = 100`. -/
def gW100 : Game := ⟨fun _ => ⟨0, 100, 0, true, 0⟩, 0⟩

/-- Concrete game at ply 0 with an all-zero position. -/
def gW0 : Game := ⟨fun _ => ⟨0, 0, 0, false, 0⟩, 0⟩

/-- Concrete game at ply 8 where every position of the history has the same
key and the current position has `rule50 = 8`: the repetition scan sees
matches at offsets 4, 6 and 8. -/
def gW8 : Game := ⟨fun _ => ⟨0, 8, 0, false, 0⟩, 8⟩

/-- Concrete game at ply 2 whose current position has `rule50 = 2`, so the
position command replays moves from `ply0 = 0`. -/
def gW2 : Game := ⟨fun n => ⟨0, if n = 2 then 2 else 0, n, false, n⟩, 2⟩

/-- Concrete engine options: only movetime set. -/
def eoW6a : EngineOptions := ⟨0, 0, 50, 0, 0, 0⟩

/-- Concrete engine options: time, increment and movestogo set. -/
def eoW6b : EngineOptions := ⟨0, 0, 0, 1000, 10, 5⟩

/-- Concrete engine options: nothing set. -/
def eoW6c : EngineOptions := ⟨0, 0, 0, 0, 0, 0⟩

/-- Concrete per-engine option array: engine 0 has time = 1000, engine 1 has
no time and no increment. -/
def eoW4 : Nat → EngineOptions := fun i => if i = 0 then ⟨0, 0, 0, 1000, 0, 0⟩ else ⟨0, 0, 0, 0, 0, 0⟩

/-- Concrete remaining-time array. -/
def tlW : Nat → Int := fun _ => 500

/-- Concrete FEN encoder. -/
def posGetW : Position → String := fun p => "F" ++ toString p.key

/-- Concrete LAN encoder. -/
def lanW : Position → Nat → String := fun _ m => "m" ++ toString m

/-- Concrete failing FEN parser. -/
def posSetNoneW : String → Option Position := fun _ => none

/-- Concrete freshly pushed sample (sentinel result). -/
def sampleW3 : Sample := ⟨zeroPosition, 5, NB_RESULT⟩

/-- The sample `sampleW3` as relabelled by a game that White lost. -/
def sampleRelW : Sample := ⟨zeroPosition, 5, 0⟩

/-- Joining a nonempty list of strings splits off the head. -/
theorem string_join_cons (a : String) (l : List String) :
    String.join (a :: l) = a ++ String.join l := by
  apply String.ext
  simp

/-- A left fold that appends one encoded move per element equals the seed
followed by the join of the encoded moves. -/
theorem uci_moves_foldl (lan : Position → Nat → String) (g : Game) (l : List Nat) :
    ∀ s : String,
      l.foldl (fun cmd ply => cmd ++ " " ++ lan (g.pos (ply - 1)) ((g.pos ply).lastMove)) s =
        s ++ String.join (l.map (fun ply => " " ++ lan (g.pos (ply - 1)) ((g.pos ply).lastMove))) := by
  induction l with
  | nil => intro s; simp [String.join]
  | cons x xs ih =>
    intro s
    rw [List.foldl_cons, List.map_cons, string_join_cons, ih]
    simp [String.append_assoc]

/-- Appending a section and then possibly more text always leaves the
section as an infix. -/
theorem append_section_exists (s sec m : String) (c : Prop) [Decidable c] :
    ∃ pre post, (if c then (s ++ sec) ++ m else s ++ sec) = pre ++ sec ++ post := by
  refine ⟨s, if c then m else "", ?_⟩
  by_cases h : c <;> simp [h]

/-- The fuelled repetition scan, run with enough fuel and a running count of
at most 2, returns true exactly when the total number of key matches among
the remaining offsets reaches `3 - repetitions`. -/
theorem game_repetition_scan_iff (g : Game) :
    ∀ (fuel i repetitions : Nat),
      (min (g.pos g.ply).rule50 g.ply + 2 - i) / 2 < fuel → repetitions ≤ 2 →
      (game_repetition_scan g fuel i repetitions = true ↔
        3 ≤ repetitions +
          (List.range' i ((min (g.pos g.ply).rule50 g.ply + 2 - i) / 2) 2).countP
            (fun i => (g.pos (g.ply - i)).key == (g.pos g.ply).key)) := by
  intro fuel
  induction fuel with
  | zero => intro i reps h _; omega
  | succ fuel ih =>
    intro i reps hf hr
    by_cases hi : i ≤ (g.pos g.ply).rule50 ∧ i ≤ g.ply
    · have hiB : i ≤ min (g.pos g.ply).rule50 g.ply := by omega
      have hn : (min (g.pos g.ply).rule50 g.ply + 2 - i) / 2 =
          (min (g.pos g.ply).rule50 g.ply + 2 - (i + 2)) / 2 + 1 := by omega
      rw [hn, List.range'_succ]
      simp only [game_repetition_scan, if_pos hi]
      by_cases hk : (g.pos (g.ply - i)).key = (g.pos g.ply).key
      · rw [if_pos hk]
        by_cases h3 : 3 ≤ reps + 1
        · rw [if_pos h3]
          simp [List.countP_cons, hk]
          omega
        · rw [if_neg h3]
          rw [ih (i + 2) (reps + 1) (by omega) (by omega)]
          simp [List.countP_cons, hk]
          omega
      · rw [if_neg hk]
        rw [ih (i + 2) reps (by omega) hr]
        simp [List.countP_cons, hk]
    · have h0 : (min (g.pos g.ply).rule50 g.ply + 2 - i) / 2 = 0 := by omega
      rw [h0]
      simp only [game_repetition_scan, if_neg hi, List.range'_zero, List.countP_nil]
      simp
      omega

/-- The white-POV result is one of LOSS, DRAW, WIN. -/
theorem game_wpov_mem (state turnAtEnd : Nat) :
    game_wpov state turnAtEnd = 0 ∨ game_wpov state turnAtEnd = 1 ∨
      game_wpov state turnAtEnd = 2 := by
  unfold game_wpov RESULT_LOSS RESULT_DRAW RESULT_WIN
  split
  · split
    · simp
    · simp
  · simp

/-- C1: the value game_play returns (engine 0's point of view) is LOSS when
`state < STATE_SEPARATOR` and engine 0 is on the move, WIN when
`state < STATE_SEPARATOR` and engine 1 is on the move, and DRAW otherwise;
in particular it is DRAW for STATE_RESIGN and STATE_TIME_LOSS, which sort
after the separator although the PGN records them as decisive. -/
theorem game_play_return_value (state turnAtEnd ei : Nat) (samples : List Sample) :
    (state < STATE_SEPARATOR → ei = 0 →
      (game_play_finish state turnAtEnd ei samples).2 = RESULT_LOSS) ∧
    (state < STATE_SEPARATOR → ei = 1 →
      (game_play_finish state turnAtEnd ei samples).2 = RESULT_WIN) ∧
    (STATE_SEPARATOR ≤ state →
      (game_play_finish state turnAtEnd ei samples).2 = RESULT_DRAW) ∧
    (game_play_finish STATE_RESIGN turnAtEnd ei samples).2 = RESULT_DRAW ∧
    (game_play_finish STATE_TIME_LOSS turnAtEnd ei samples).2 = RESULT_DRAW := by
  refine ⟨?_, ?_, ?_, ?_, ?_⟩
  · intro h h0
    simp [game_play_finish, h, h0]
  · intro h h1
    simp [game_play_finish, h, h1]
  · intro h
    simp [game_play_finish, Nat.not_lt.mpr h]
  · simp [game_play_finish, STATE_RESIGN, STATE_SEPARATOR]
  · simp [game_play_finish, STATE_TIME_LOSS, STATE_SEPARATOR]

/-- Witness for C1 at concrete states and engine indices. -/
theorem game_play_return_value_witness :
    STATE_CHECKMATE < STATE_SEPARATOR ∧
    (game_play_finish STATE_CHECKMATE 0 0 []).2 = RESULT_LOSS ∧
    (game_play_finish STATE_CHECKMATE 0 1 []).2 = RESULT_WIN ∧
    STATE_SEPARATOR ≤ STATE_DRAW_ADJUDICATION ∧
    (game_play_finish STATE_DRAW_ADJUDICATION 0 0 []).2 = RESULT_DRAW ∧
    (game_play_finish STATE_RESIGN 0 0 []).2 = RESULT_DRAW ∧
    (game_play_finish STATE_TIME_LOSS 0 0 []).2 = RESULT_DRAW :=
  ⟨by decide,
   (game_play_return_value STATE_CHECKMATE 0 0 []).1 (by decide) rfl,
   (game_play_return_value STATE_CHECKMATE 0 1 []).2.1 (by decide) rfl,
   by decide,
   (game_play_return_value STATE_DRAW_ADJUDICATION 0 0 []).2.2.1 (by decide),
   (game_play_return_value STATE_RESIGN 0 0 []).2.2.2.1,
   (game_play_return_value STATE_TIME_LOSS 0 0 []).2.2.2.2⟩

/-- C2: game_apply_chess_rules applies its checks in order with first hit
winning: with no legal move it returns CHECKMATE when in check and STALEMATE
otherwise (so a mate on the 100th rule50 half-move is CHECKMATE, not
FIFTY_MOVES); only then `rule50 ≥ 100` returns FIFTY_MOVES; then
INSUFFICIENT_MATERIAL; then the threefold scan; otherwise NONE. -/
theorem game_apply_chess_rules_order (gen : Position → List Nat)
    (insuf : Position → Bool) (g : Game) :
    (gen (g.pos g.ply) = [] →
      (game_apply_chess_rules gen insuf g).1 =
        (if (g.pos g.ply).checkers then STATE_CHECKMATE else STATE_STALEMATE)) ∧
    (gen (g.pos g.ply) = [] → (g.pos g.ply).checkers = true → (g.pos g.ply).rule50 = 100 →
      (game_apply_chess_rules gen insuf g).1 = STATE_CHECKMATE) ∧
    (gen (g.pos g.ply) ≠ [] → 100 ≤ (g.pos g.ply).rule50 →
      (game_apply_chess_rules gen insuf g).1 = STATE_FIFTY_MOVES) ∧
    (gen (g.pos g.ply) ≠ [] → (g.pos g.ply).rule50 < 100 → insuf (g.pos g.ply) = true →
      (game_apply_chess_rules gen insuf g).1 = STATE_INSUFFICIENT_MATERIAL) ∧
    (gen (g.pos g.ply) ≠ [] → (g.pos g.ply).rule50 < 100 → insuf (g.pos g.ply) = false →
      (game_apply_chess_rules gen insuf g).1 =
        (if game_repetition_scan g (g.ply + 1) 4 1 then STATE_THREEFOLD else STATE_NONE)) := by
  refine ⟨?_, ?_, ?_, ?_, ?_⟩
  · intro h
    simp [game_apply_chess_rules, h]
  · intro h hc _
    simp [game_apply_chess_rules, h, hc]
  · intro h h100
    simp [game_apply_chess_rules, h, h100]
  · intro h h100 hins
    have h100' : ¬ 100 ≤ (g.pos g.ply).rule50 := by omega
    simp [game_apply_chess_rules, h, h100', hins]
  · intro h h100 hins
    have h100' : ¬ 100 ≤ (g.pos g.ply).rule50 := by omega
    by_cases hs : game_repetition_scan g (g.ply + 1) 4 1 <;>
      simp [game_apply_chess_rules, h, h100', hins, hs]

/-- Witness for C2: each branch of the ordered dispatch reached on a
concrete input. -/
theorem game_apply_chess_rules_order_witness :
    (game_apply_chess_rules genEmptyW insufFalseW gW100).1 =
      (if (gW100.pos gW100.ply).checkers then STATE_CHECKMATE else STATE_STALEMATE) ∧
    (game_apply_chess_rules genEmptyW insufFalseW gW100).1 = STATE_CHECKMATE ∧
    (game_apply_chess_rules genOneW insufFalseW gW100).1 = STATE_FIFTY_MOVES ∧
    (game_apply_chess_rules genOneW insufTrueW gW8).1 = STATE_INSUFFICIENT_MATERIAL ∧
    (game_apply_chess_rules genOneW insufFalseW gW8).1 =
      (if game_repetition_scan gW8 (gW8.ply + 1) 4 1 then STATE_THREEFOLD else STATE_NONE) :=
  ⟨(game_apply_chess_rules_order genEmptyW insufFalseW gW100).1 rfl,
   (game_apply_chess_rules_order genEmptyW insufFalseW gW100).2.1 rfl rfl rfl,
   (game_apply_chess_rules_order genOneW insufFalseW gW100).2.2.1 (by decide) (by decide),
   (game_apply_chess_rules_order genOneW insufTrueW gW8).2.2.2.1 (by decide) (by decide) rfl,
   (game_apply_chess_rules_order genOneW insufFalseW gW8).2.2.2.2 (by decide) (by decide) rfl⟩

/-- C3 (amended): provided the earlier checks do not fire (there is a legal
move, `rule50 < 100` and material is sufficient), game_apply_chess_rules
returns THREEFOLD exactly when at least two of the scanned earlier positions
(offsets `i = 4, 6, 8, …` with `i ≤ rule50 ∧ i ≤ ply`) have the same Zobrist
key as the current position. -/
theorem game_apply_chess_rules_threefold_iff (gen : Position → List Nat)
    (insuf : Position → Bool) (g : Game)
    (h1 : gen (g.pos g.ply) ≠ []) (h2 : (g.pos g.ply).rule50 < 100)
    (h3 : insuf (g.pos g.ply) = false) :
    ((game_apply_chess_rules gen insuf g).1 = STATE_THREEFOLD ↔
      2 ≤ game_repetition_count g) := by
  have h2' : ¬ 100 ≤ (g.pos g.ply).rule50 := by omega
  have hscan := game_repetition_scan_iff g (g.ply + 1) 4 1 (by omega) (by omega)
  have hcount : (game_repetition_scan g (g.ply + 1) 4 1 = true) ↔
      2 ≤ game_repetition_count g := by
    rw [hscan]
    unfold game_repetition_count repetition_offsets
    omega
  by_cases hs : game_repetition_scan g (g.ply + 1) 4 1
  · simp [game_apply_chess_rules, h1, h2', h3, hs]
    exact hcount.mp hs
  · rw [← hcount]
    simp [game_apply_chess_rules, h1, h2', h3, hs, STATE_NONE, STATE_THREEFOLD]

/-- Witness for C3 (amended) on a concrete game with three key matches. -/
theorem game_apply_chess_rules_threefold_iff_witness :
    genOneW (gW8.pos gW8.ply) ≠ [] ∧ (gW8.pos gW8.ply).rule50 < 100 ∧
    insufFalseW (gW8.pos gW8.ply) = false ∧
    ((game_apply_chess_rules genOneW insufFalseW gW8).1 = STATE_THREEFOLD ↔
      2 ≤ game_repetition_count gW8) :=
  ⟨by decide, by decide, rfl,
   game_apply_chess_rules_threefold_iff genOneW insufFalseW gW8 (by decide) (by decide) rfl⟩

/-- Counterexample to C3 as stated: in this game history the scan condition
holds (the current key occurs at offsets 4, 6 and 8, so at least twice), yet
the adjudicator does not return THREEFOLD, because the insufficient-material
check fires first. -/
theorem game_apply_chess_rules_threefold_cex :
    2 ≤ game_repetition_count gW8 ∧
    (game_apply_chess_rules genOneW insufTrueW gW8).1 ≠ STATE_THREEFOLD := by
  constructor
  · decide
  · decide

/-- C4 (amended): when time or increment is set for the engine on the move
(`eo[ei]`), the generated go command contains
` wtime <ms> winc <ms> btime <ms> binc <ms>` with the engine-indexed clocks
and increments mapped to colour-indexed fields through the XOR permutation:
wtime/winc take index `ei ^ color` and btime/binc take index
`ei ^ color ^ BLACK`, where `color` is the side to move. -/
theorem uci_go_command_time_fields (eo : Nat → EngineOptions) (ei : Nat)
    (timeLeft : Nat → Int) (g : Game)
    (h : (eo ei).time ≠ 0 ∨ (eo ei).increment ≠ 0) :
    ∃ pre post, uci_go_command eo ei timeLeft g =
      pre ++ (" wtime " ++ toString (timeLeft (ei ^^^ (g.pos g.ply).turn)) ++
        " winc " ++ toString (eo (ei ^^^ (g.pos g.ply).turn)).increment ++
        " btime " ++ toString (timeLeft (ei ^^^ (g.pos g.ply).turn ^^^ BLACK)) ++
        " binc " ++ toString (eo (ei ^^^ (g.pos g.ply).turn ^^^ BLACK)).increment) ++ post := by
  simp only [uci_go_command]
  rw [if_pos h]
  exact append_section_exists _ _ _ _

/-- Witness for C4 (amended): engine 0 has time set and moves. -/
theorem uci_go_command_time_fields_witness :
    ((eoW4 0).time ≠ 0 ∨ (eoW4 0).increment ≠ 0) ∧
    (∃ pre post, uci_go_command eoW4 0 tlW gW0 =
      pre ++ (" wtime " ++ toString (tlW (0 ^^^ (gW0.pos gW0.ply).turn)) ++
        " winc " ++ toString (eoW4 (0 ^^^ (gW0.pos gW0.ply).turn)).increment ++
        " btime " ++ toString (tlW (0 ^^^ (gW0.pos gW0.ply).turn ^^^ BLACK)) ++
        " binc " ++ toString (eoW4 (0 ^^^ (gW0.pos gW0.ply).turn ^^^ BLACK)).increment) ++ post) :=
  ⟨Or.inl (by decide), uci_go_command_time_fields eoW4 0 tlW gW0 (Or.inl (by decide))⟩

/-- Counterexample to C4 as stated: time is set for one side (engine 0), but
with engine 1 on the move the generated command is just "go" and contains no
wtime field — the code tests `eo[ei]`, not "either side". -/
theorem uci_go_command_time_fields_cex :
    ((eoW4 0).time ≠ 0 ∨ (eoW4 0).increment ≠ 0) ∧
    uci_go_command eoW4 1 tlW gW0 = "go" ∧
    ∀ pre post : String, uci_go_command eoW4 1 tlW gW0 ≠ pre ++ " wtime " ++ post := by
  refine ⟨Or.inl (by decide), rfl, ?_⟩
  intro pre post hcontra
  rw [show uci_go_command eoW4 1 tlW gW0 = "go" from rfl] at hcontra
  have hlen := congrArg String.length hcontra
  rw [String.length_append, String.length_append] at hlen
  have hgo : ("go").length = 2 := rfl
  have hw : (" wtime ").length = 7 := rfl
  omega

/-- C5: the position command starts from
`ply0 = max(ply - pos[ply].rule50, 0)`: it is `position fen <FEN of
pos[ply0]>`, and exactly when `ply0 < ply` it is followed by ` moves` and the
space-prefixed LAN encodings of the last moves of `pos[ply0+1] … pos[ply]`,
in that order. -/
theorem uci_position_command_spec (posGet : Position → String)
    (lan : Position → Nat → String) (g : Game) (ply0 : Nat)
    (hply0 : (ply0 : Int) = max ((g.ply : Int) - ((g.pos g.ply).rule50 : Int)) 0) :
    uci_position_command posGet lan g =
      "position fen " ++ posGet (g.pos ply0) ++
        (if ply0 < g.ply then
          " moves" ++ String.join ((List.range' (ply0 + 1) (g.ply - ply0)).map
            (fun ply => " " ++ lan (g.pos (ply - 1)) ((g.pos ply).lastMove)))
        else "") := by
  have h : ply0 = g.ply - (g.pos g.ply).rule50 := by omega
  subst h
  simp only [uci_position_command]
  by_cases hlt : g.ply - (g.pos g.ply).rule50 < g.ply
  · rw [if_pos hlt, if_pos hlt, uci_moves_foldl]
    simp [String.append_assoc]
  · rw [if_neg hlt, if_neg hlt]
    simp

/-- Witness for C5 on a concrete two-ply game with `rule50 = 2`. -/
theorem uci_position_command_spec_witness :
    ((0 : Nat) : Int) = max ((gW2.ply : Int) - ((gW2.pos gW2.ply).rule50 : Int)) 0 ∧
    uci_position_command posGetW lanW gW2 =
      "position fen " ++ posGetW (gW2.pos 0) ++
        (if 0 < gW2.ply then
          " moves" ++ String.join ((List.range' (0 + 1) (gW2.ply - 0)).map
            (fun ply => " " ++ lanW (gW2.pos (ply - 1)) ((gW2.pos ply).lastMove)))
        else "") :=
  ⟨by decide, uci_position_command_spec posGetW lanW gW2 0 (by decide)⟩

/-- C6: before engine `ei` moves its clock is updated by exactly one of
three mutually exclusive rules, tried in this order: movetime overwrites the
clock; else, if time or increment is set, the increment is added and, when
`movestogo > 0 ∧ ply > 1 ∧ (ply / 2) % movestogo = 0`, the base time is
added as a refill; else the clock is set to `INT64_MAX / 2`. -/
theorem game_prepare_timeLeft_spec (eo : EngineOptions) (t : Int) (ply : Nat) :
    (eo.movetime ≠ 0 → game_prepare_timeLeft eo t ply = eo.movetime) ∧
    (eo.movetime = 0 → (eo.time ≠ 0 ∨ eo.increment ≠ 0) →
      game_prepare_timeLeft eo t ply =
        t + eo.increment +
          (if 0 < eo.movestogo ∧ 1 < ply ∧ (ply / 2) % eo.movestogo = 0 then eo.time
           else 0)) ∧
    (eo.movetime = 0 → eo.time = 0 → eo.increment = 0 →
      game_prepare_timeLeft eo t ply = INT64_MAX / 2) := by
  refine ⟨?_, ?_, ?_⟩
  · intro hm
    simp [game_prepare_timeLeft, hm]
  · intro hm hti
    unfold game_prepare_timeLeft
    rw [if_neg (by simp [hm]), if_pos hti]
    by_cases hc : eo.movestogo ≠ 0 ∧ 1 < ply ∧ (ply / 2) % eo.movestogo = 0
    · have hc' : 0 < eo.movestogo ∧ 1 < ply ∧ (ply / 2) % eo.movestogo = 0 :=
        ⟨by omega, hc.2⟩
      rw [if_pos hc, if_pos hc']
    · have hc' : ¬(0 < eo.movestogo ∧ 1 < ply ∧ (ply / 2) % eo.movestogo = 0) := by
        intro hx
        exact hc ⟨by omega, hx.2⟩
      rw [if_neg hc, if_neg hc']
      simp
  · intro hm ht hi
    unfold game_prepare_timeLeft
    rw [if_neg (by simp [hm]), if_neg (by simp [ht, hi])]

/-- Witness for C6: the three rules at concrete option sets. -/
theorem game_prepare_timeLeft_spec_witness :
    game_prepare_timeLeft eoW6a 7 4 = 50 ∧
    game_prepare_timeLeft eoW6b 7 20 = 1017 ∧
    game_prepare_timeLeft eoW6c 7 4 = INT64_MAX / 2 := by
  refine ⟨(game_prepare_timeLeft_spec eoW6a 7 4).1 (by decide), ?_,
    (game_prepare_timeLeft_spec eoW6c 7 4).2.2 rfl rfl rfl⟩
  have h := (game_prepare_timeLeft_spec eoW6b 7 20).2.1 rfl (Or.inl (by decide))
  rw [h]
  norm_num [eoW6b]

/-- C7: every sample admitted by the sampler carries the candidate position
(the resolved PV position when `sp.resolve` is set, else `pos[ply]`), and its
stored score is `info.score` when the candidate's side to move equals
`pos[ply].turn` and `-info.score` otherwise. -/
theorem game_sample_step_score (resolve : Bool) (resolved posPly : Position)
    (score : Int) (accept : Bool) (s : Sample)
    (h : game_sample_step resolve resolved posPly score accept = some s) :
    s.pos = (if resolve then resolved else posPly) ∧
    s.score =
      (if (if resolve then resolved else posPly).turn = posPly.turn then score
       else -score) := by
  simp only [game_sample_step] at h
  by_cases h1 : (!(resolve && is_mate score) && accept) = true
  · rw [if_pos h1] at h
    by_cases h2 : (!resolve || !(if resolve then resolved else posPly).checkers) = true
    · rw [if_pos h2] at h
      injection h with h
      subst h
      exact ⟨rfl, rfl⟩
    · rw [if_neg h2] at h
      simp at h
  · rw [if_neg h1] at h
    simp at h

/-- Witness for C7 at a concrete admitted sample. -/
theorem game_sample_step_score_witness :
    game_sample_step false zeroPosition zeroPosition 5 true = some sampleW3 ∧
    (sampleW3.pos = (if false then zeroPosition else zeroPosition) ∧
     sampleW3.score =
       (if (if false then zeroPosition else zeroPosition).turn = zeroPosition.turn then 5
        else -5)) :=
  ⟨rfl, game_sample_step_score false zeroPosition zeroPosition 5 true sampleW3 rfl⟩

/-- C8: after the post-game relabelling, every stored sample's result is
`wpov` when the sample position's side to move is WHITE and `2 - wpov`
otherwise, where `wpov` is the game result from White's point of view;
consequently the result is LOSS, DRAW or WIN and never the sentinel
NB_RESULT. -/
theorem game_play_samples_result (state turnAtEnd ei : Nat) (samples : List Sample)
    (s : Sample) (hs : s ∈ (game_play_finish state turnAtEnd ei samples).1) :
    s.result =
      (if s.pos.turn = WHITE then game_wpov state turnAtEnd
       else 2 - game_wpov state turnAtEnd) ∧
    (s.result = RESULT_LOSS ∨ s.result = RESULT_DRAW ∨ s.result = RESULT_WIN) ∧
    s.result ≠ NB_RESULT := by
  simp only [game_play_finish, List.mem_map] at hs
  obtain ⟨t, ht, rfl⟩ := hs
  have hw := game_wpov_mem state turnAtEnd
  refine ⟨rfl, ?_, ?_⟩
  · simp only [RESULT_LOSS, RESULT_DRAW, RESULT_WIN]
    by_cases hturn : t.pos.turn = WHITE <;> simp [hturn] <;> omega
  · simp only [NB_RESULT]
    by_cases hturn : t.pos.turn = WHITE <;> simp [hturn] <;> omega

/-- Witness for C8: a concrete sample relabelled by a checkmate lost by
White. -/
theorem game_play_samples_result_witness :
    sampleRelW ∈ (game_play_finish STATE_CHECKMATE 0 1 [sampleW3]).1 ∧
    (sampleRelW.result =
      (if sampleRelW.pos.turn = WHITE then game_wpov STATE_CHECKMATE 0
       else 2 - game_wpov STATE_CHECKMATE 0) ∧
    (sampleRelW.result = RESULT_LOSS ∨ sampleRelW.result = RESULT_DRAW ∨
      sampleRelW.result = RESULT_WIN) ∧
    sampleRelW.result ≠ NB_RESULT) :=
  ⟨by decide,
   game_play_samples_result STATE_CHECKMATE 0 1 [sampleW3] sampleRelW (by decide)⟩

/-- C9: game_decode_state produces exactly the spec's table of
(Result, Termination) pairs: draws for STALEMATE, THREEFOLD, FIFTY_MOVES,
INSUFFICIENT_MATERIAL and DRAW_ADJUDICATION; loser-dependent results ("0-1"
when White is on the move, "1-0" otherwise) for CHECKMATE, ILLEGAL_MOVE,
RESIGN and TIME_LOSS; "*" with reason "unterminated" for NONE; with the
literal reason strings of the table. -/
theorem game_decode_state_table (turn : Nat) :
    game_decode_state STATE_NONE turn = ("*", "unterminated") ∧
    game_decode_state STATE_CHECKMATE turn =
      ((if turn = WHITE then "0-1" else "1-0"), "checkmate") ∧
    game_decode_state STATE_STALEMATE turn = ("1/2-1/2", "stalemate") ∧
    game_decode_state STATE_THREEFOLD turn = ("1/2-1/2", "3-fold repetition") ∧
    game_decode_state STATE_FIFTY_MOVES turn = ("1/2-1/2", "50 moves rule") ∧
    game_decode_state STATE_INSUFFICIENT_MATERIAL turn =
      ("1/2-1/2", "insufficient material") ∧
    game_decode_state STATE_ILLEGAL_MOVE turn =
      ((if turn = WHITE then "0-1" else "1-0"), "rules infraction") ∧
    game_decode_state STATE_DRAW_ADJUDICATION turn = ("1/2-1/2", "adjudication") ∧
    game_decode_state STATE_RESIGN turn =
      ((if turn = WHITE then "0-1" else "1-0"), "adjudication") ∧
    game_decode_state STATE_TIME_LOSS turn =
      ((if turn = WHITE then "0-1" else "1-0"), "time forfeit") :=
  ⟨rfl, rfl, rfl, rfl, rfl, rfl, rfl, rfl, rfl, rfl⟩

/-- C10: game_load_fen is not atomic on failure: it first appends a
zero-initialized position to the position sequence and only then parses the
FEN; when parsing fails it returns false (here: `none` in place of `*color`)
while the position sequence has still grown by one element. -/
theorem game_load_fen_not_atomic (posSet : String → Option Position)
    (pos : List Position) (fen : String) :
    (game_load_fen posSet pos fen).1.length = pos.length + 1 ∧
    (posSet fen = none →
      game_load_fen posSet pos fen = (pos ++ [zeroPosition], none)) := by
  constructor
  · unfold game_load_fen
    cases h : posSet fen <;> simp [h]
  · intro h
    simp [game_load_fen, h]

/-- Witness for C10 with a parser that fails on every input. -/
theorem game_load_fen_not_atomic_witness :
    posSetNoneW "x" = none ∧
    (game_load_fen posSetNoneW [] "x").1.length = List.length ([] : List Position) + 1 ∧
    game_load_fen posSetNoneW [] "x" = ([] ++ [zeroPosition], none) :=
  ⟨rfl, (game_load_fen_not_atomic posSetNoneW [] "x").1,
   (game_load_fen_not_atomic posSetNoneW [] "x").2 rfl⟩

end CChessCli
